import Mathlib

/-!
# Verification of the vscode-lm-proxy protocol translation layer

Shallow embedding of the converter / handler code of the `vscode-lm-proxy`
repository, together with proofs of the spec's testable properties.

The host model's response stream is a finite ordered sequence of parts
(`vscode.LanguageModelTextPart`, `vscode.LanguageModelToolCallPart`, or
anything else).  The token counter `vsCodeModel.countTokens : string -> int`
is modelled as an abstract function `count : String → Nat`.  `JSON.stringify`
of a tool-call part (a plain object with fields `callId`, `name`, `input`) is
modelled by `jsonStringifyToolCallPart`; the tool-call `input` object is
carried in already-serialized form (`inputJson`).  Constant response metadata
(random ids, timestamps, model name) is irrelevant to every property proved
here and is not carried in the event structures.
-/

/-- One part of the host model response stream, as consumed by every
synthesizer (`src/server/handler.ts` `isTextPart` / `isToolCallPart`):
a `LanguageModelTextPart`, a `LanguageModelToolCallPart`, or any other
value (for which both type guards return `false`). -/
inductive StreamPart where
  | text (value : String)
  | toolCall (callId : String) (nm : String) (inputJson : String)
  | other
  deriving DecidableEq, Repr

/-- Model of `JSON.stringify(part)` for a `LanguageModelToolCallPart`
(an object with fields `callId`, `name`, `input`); `inputJson` is the
serialized `input` object. -/
def jsonStringifyToolCallPart (callId nm inputJson : String) : String :=
  "\x7b\"callId\":\"" ++ callId ++ "\",\"name\":\"" ++ nm ++
    "\",\"input\":" ++ inputJson ++ "\x7d"

/-- Output-token cost of one stream part, exactly as every synthesizer
accounts it: `countTokens(part.value)` for a text part,
`countTokens(JSON.stringify(part))` for a tool-call part, nothing for
unrecognized parts. -/
def fragmentTokens (count : String → Nat) : StreamPart → Nat
  | .text v => count v
  | .toolCall c n j => count (jsonStringifyToolCallPart c n j)
  | .other => 0

/-- `true` iff at least one `ToolCallFragment` occurs in the sequence. -/
def hasToolCall (parts : List StreamPart) : Bool :=
  parts.any fun p => match p with
    | .toolCall _ _ _ => true
    | _ => false

/-- Left-to-right accumulation of the incremental output-token counter
(`outputTokens += await vsCodeModel.countTokens(...)`) starting from `out`. -/
def tokensFold (count : String → Nat) (out : Nat) (parts : List StreamPart) : Nat :=
  parts.foldl (fun acc p => acc + fragmentTokens count p) out

/-- Left-to-right accumulation of the text buffer
(`textBuffer += part.value`) starting from `buf`. -/
def textFold (buf : String) (parts : List StreamPart) : String :=
  parts.foldl (fun acc p => match p with
    | .text v => acc ++ v
    | _ => acc) buf

/-- Stream parts that the synthesizers recognize (text or tool call);
`isTextPart`/`isToolCallPart` both return `false` exactly on the rest. -/
def recognizedPart : StreamPart → Bool
  | .text _ => true
  | .toolCall _ _ _ => true
  | .other => false

/-! ## OpenAI Chat Completions synthesizers (`src/converter/openaiConverter.ts`) -/

/-- One element of a streaming chunk's `delta.tool_calls` array. -/
structure ToolCallDelta where
  index : Nat
  id : String
  nm : String
  arguments : String
  deriving DecidableEq, Repr

/-- `choices[0].delta` of a `ChatCompletionChunk`. -/
structure ChatDelta where
  role : Option String
  content : Option String
  tool_calls : Option (List ToolCallDelta)
  deriving DecidableEq, Repr

/-- The empty delta `{}`. -/
def ChatDelta.empty : ChatDelta := ⟨none, none, none⟩

/-- The `usage` object of a chunk / completion. -/
structure ChatUsage where
  completion_tokens : Nat
  prompt_tokens : Nat
  total_tokens : Nat
  deriving DecidableEq, Repr

/-- A `ChatCompletionChunk`, restricted to its single choice's `delta`,
`finish_reason` and the `usage` object (id / created / model / object are
constants of the call, not modelled). -/
structure ChatCompletionChunk where
  delta : ChatDelta
  finish_reason : Option String
  usage : ChatUsage
  deriving DecidableEq, Repr

/-- The loop body of `convertVSCodeStreamToOpenAIChunks`: one chunk per
stream part (role sent once with the first text part, tool-call deltas with
an incrementing index, unrecognized parts leave the chunk's delta empty),
then a final chunk with empty delta, the resolved finish reason and the
accumulated usage. State: `isRoleSent`, `toolCallIndex`, `isToolCalled`,
`outputTokens`. -/
def convertVSCodeStreamToOpenAIChunks.go (count : String → Nat) (inputTokens : Nat) :
    List StreamPart → Bool → Nat → Bool → Nat → List ChatCompletionChunk
  | [], _isRoleSent, _tci, isToolCalled, outputTokens =>
      [⟨ChatDelta.empty, some (if isToolCalled then "tool_calls" else "stop"),
        ⟨outputTokens, inputTokens, inputTokens + outputTokens⟩⟩]
  | .text v :: rest, isRoleSent, tci, itc, out =>
      ⟨⟨if isRoleSent then none else some "assistant", some v, none⟩, none, ⟨0, 0, 0⟩⟩ ::
        convertVSCodeStreamToOpenAIChunks.go count inputTokens rest true tci itc (out + count v)
  | .toolCall c n j :: rest, isRoleSent, tci, _itc, out =>
      ⟨⟨none, none, some [⟨tci, c, n, j⟩]⟩, none, ⟨0, 0, 0⟩⟩ ::
        convertVSCodeStreamToOpenAIChunks.go count inputTokens rest isRoleSent (tci + 1) true
          (out + count (jsonStringifyToolCallPart c n j))
  | .other :: rest, isRoleSent, tci, itc, out =>
      ⟨ChatDelta.empty, none, ⟨0, 0, 0⟩⟩ ::
        convertVSCodeStreamToOpenAIChunks.go count inputTokens rest isRoleSent tci itc out

/-- Streaming synthesizer `convertVSCodeStreamToOpenAIChunks`
(`src/converter/openaiConverter.ts` lines 249–365), as the finite list of
chunks it yields for a finite stream. -/
def convertVSCodeStreamToOpenAIChunks (count : String → Nat) (inputTokens : Nat)
    (parts : List StreamPart) : List ChatCompletionChunk :=
  convertVSCodeStreamToOpenAIChunks.go count inputTokens parts false 0 false 0

/-- One entry of the non-streaming completion's `message.tool_calls`. -/
structure ChatToolCall where
  id : String
  nm : String
  arguments : String
  deriving DecidableEq, Repr

/-- `choices[0].message` of a non-streaming `ChatCompletion`. -/
structure ChatMessage where
  role : String
  content : String
  tool_calls : Option (List ChatToolCall)
  deriving DecidableEq, Repr

/-- A non-streaming `ChatCompletion`, restricted to its single choice and
usage. -/
structure ChatCompletion where
  message : ChatMessage
  finish_reason : String
  usage : ChatUsage
  deriving DecidableEq, Repr

/-- Accumulator of `convertVSCodeTextToOpenAICompletion`'s stream loop. -/
structure OpenAICompletionAcc where
  textBuffer : String
  toolCalls : List ChatToolCall
  isToolCalled : Bool
  outputTokens : Nat
  deriving DecidableEq, Repr

/-- The stream loop of `convertVSCodeTextToOpenAICompletion`: text parts are
concatenated into `textBuffer`, tool-call parts appended to `toolCalls`,
tokens accumulated per fragment, other parts skipped. -/
def convertVSCodeTextToOpenAICompletion.go (count : String → Nat) :
    List StreamPart → OpenAICompletionAcc → OpenAICompletionAcc
  | [], acc => acc
  | .text v :: rest, acc =>
      convertVSCodeTextToOpenAICompletion.go count rest
        { acc with textBuffer := acc.textBuffer ++ v,
                   outputTokens := acc.outputTokens + count v }
  | .toolCall c n j :: rest, acc =>
      convertVSCodeTextToOpenAICompletion.go count rest
        { acc with toolCalls := acc.toolCalls ++ [⟨c, n, j⟩],
                   isToolCalled := true,
                   outputTokens := acc.outputTokens + count (jsonStringifyToolCallPart c n j) }
  | .other :: rest, acc => convertVSCodeTextToOpenAICompletion.go count rest acc

/-- Non-streaming synthesizer `convertVSCodeTextToOpenAICompletion`
(`src/converter/openaiConverter.ts` lines 374–454). -/
def convertVSCodeTextToOpenAICompletion (count : String → Nat) (inputTokens : Nat)
    (parts : List StreamPart) : ChatCompletion :=
  let acc := convertVSCodeTextToOpenAICompletion.go count parts ⟨"", [], false, 0⟩
  ⟨⟨"assistant", acc.textBuffer, if acc.isToolCalled then some acc.toolCalls else none⟩,
    if acc.isToolCalled then "tool_calls" else "stop",
    ⟨acc.outputTokens, inputTokens, inputTokens + acc.outputTokens⟩⟩

/-! ## Anthropic Messages synthesizers
(`src/converter/anthropic/convertVSCodeStreamToAnthropicStream.ts` and the
identical private copy in `anthropicConverter.ts`; non-streaming:
`convertVSCodeTextToAnthropicMessage`) -/

/-- An Anthropic content block: a text block or a `tool_use` block.  In a
streaming `content_block_start` the tool block's `input` is the literal
empty object; in a non-streaming `Message` it is the part's actual input. -/
inductive AnthropicBlock where
  | text (txt : String)
  | toolUse (id : String) (nm : String) (inputJson : String)
  deriving DecidableEq, Repr

/-- A `content_block_delta` payload. -/
inductive AnthropicDelta where
  | textDelta (txt : String)
  | inputJsonDelta (pj : String)
  deriving DecidableEq, Repr

/-- The Anthropic `RawMessageStreamEvent`s emitted by the streaming
synthesizer (constant metadata such as message id / model elided). -/
inductive AnthropicEvent where
  | messageStart (inputTokens : Nat)
  | contentBlockStart (index : Nat) (block : AnthropicBlock)
  | contentBlockDelta (index : Nat) (delta : AnthropicDelta)
  | contentBlockStop (index : Nat)
  | messageDelta (stopReason : String) (inputTokens : Nat) (outputTokens : Nat)
  | messageStop
  deriving DecidableEq, Repr

/-- The loop of `convertVSCodeStreamToAnthropicStream` plus its epilogue.
State: `contentIndex`, `isInsideTextBlock`, `stopReason`, `outputTokens`.
A text part opens a text block if none is open and sends a text delta; a
tool-call part closes any open text block, then emits its own
start / input_json_delta / stop triplet and makes `stopReason` "tool_use";
unrecognized parts are skipped.  At stream end an open text block is closed
and `message_delta` (with the resolved stop reason and final usage) and
`message_stop` are emitted. -/
def convertVSCodeStreamToAnthropicStream.go (count : String → Nat) (inputTokens : Nat) :
    List StreamPart → Nat → Bool → String → Nat → List AnthropicEvent
  | [], idx, inside, stopReason, out =>
      (if inside then [.contentBlockStop idx] else []) ++
        [.messageDelta stopReason inputTokens out, .messageStop]
  | .text v :: rest, idx, inside, stopReason, out =>
      (if inside then [] else [.contentBlockStart idx (.text "")]) ++
        .contentBlockDelta idx (.textDelta v) ::
          convertVSCodeStreamToAnthropicStream.go count inputTokens rest idx true stopReason
            (out + count v)
  | .toolCall c n j :: rest, idx, inside, _stopReason, out =>
      let idx2 := if inside then idx + 1 else idx
      (if inside then [.contentBlockStop idx] else []) ++
        .contentBlockStart idx2 (.toolUse c n "\x7b\x7d") ::
        .contentBlockDelta idx2 (.inputJsonDelta j) ::
        .contentBlockStop idx2 ::
          convertVSCodeStreamToAnthropicStream.go count inputTokens rest (idx2 + 1) false
            "tool_use" (out + count (jsonStringifyToolCallPart c n j))
  | .other :: rest, idx, inside, stopReason, out =>
      convertVSCodeStreamToAnthropicStream.go count inputTokens rest idx inside stopReason out

/-- Streaming synthesizer `convertVSCodeStreamToAnthropicStream`
(`src/converter/anthropic/convertVSCodeStreamToAnthropicStream.ts` lines
19–140), as the finite list of events it yields for a finite stream. -/
def convertVSCodeStreamToAnthropicStream (count : String → Nat) (inputTokens : Nat)
    (parts : List StreamPart) : List AnthropicEvent :=
  .messageStart inputTokens ::
    convertVSCodeStreamToAnthropicStream.go count inputTokens parts 0 false "end_turn" 0

/-- A non-streaming Anthropic `Message`, restricted to `content`,
`stop_reason` and usage. -/
structure AnthropicMessage where
  content : List AnthropicBlock
  stop_reason : String
  input_tokens : Nat
  output_tokens : Nat
  deriving DecidableEq, Repr

/-- Accumulator of `convertVSCodeTextToAnthropicMessage`'s stream loop. -/
structure AnthropicMessageAcc where
  textBuffer : String
  content : List AnthropicBlock
  isToolCalled : Bool
  outputTokens : Nat
  deriving DecidableEq, Repr

/-- The stream loop of `convertVSCodeTextToAnthropicMessage`: text parts
are buffered; a tool-call part first flushes a non-empty text buffer as a
text block, then appends its `tool_use` block; other parts are skipped. -/
def convertVSCodeTextToAnthropicMessage.go (count : String → Nat) :
    List StreamPart → AnthropicMessageAcc → AnthropicMessageAcc
  | [], acc => acc
  | .text v :: rest, acc =>
      convertVSCodeTextToAnthropicMessage.go count rest
        { acc with textBuffer := acc.textBuffer ++ v,
                   outputTokens := acc.outputTokens + count v }
  | .toolCall c n j :: rest, acc =>
      convertVSCodeTextToAnthropicMessage.go count rest
        { acc with textBuffer := "",
                   content := (acc.content ++
                     (if acc.textBuffer ≠ "" then [.text acc.textBuffer] else [])) ++
                     [.toolUse c n j],
                   isToolCalled := true,
                   outputTokens := acc.outputTokens + count (jsonStringifyToolCallPart c n j) }
  | .other :: rest, acc => convertVSCodeTextToAnthropicMessage.go count rest acc

/-- Non-streaming synthesizer `convertVSCodeTextToAnthropicMessage`
(`anthropicConverter.ts`; a remaining non-empty text buffer is flushed as a
final text block, and if `content` is still empty a single empty text block
is inserted). -/
def convertVSCodeTextToAnthropicMessage (count : String → Nat) (inputTokens : Nat)
    (parts : List StreamPart) : AnthropicMessage :=
  let acc := convertVSCodeTextToAnthropicMessage.go count parts ⟨"", [], false, 0⟩
  let content1 := acc.content ++ (if acc.textBuffer ≠ "" then [.text acc.textBuffer] else [])
  let content2 := if content1.length = 0 then [.text ""] else content1
  ⟨content2, if acc.isToolCalled then "tool_use" else "end_turn", inputTokens, acc.outputTokens⟩

/-! ## OpenAI Responses synthesizers (`src/converter/openaiResponsesConverter.ts`) -/

/-- A content part of a Responses output item. -/
inductive ResponsesContentPart where
  | outputText (txt : String)
  deriving DecidableEq, Repr

/-- One output item of a Responses response (always a `message` here). -/
structure ResponsesOutputItem where
  status : String
  content : List ResponsesContentPart
  deriving DecidableEq, Repr

/-- The Responses streaming events emitted by
`convertVSCodeStreamToResponsesStream` (ids / timestamps elided; the
`output_index` / `content_index` fields are carried explicitly). -/
inductive ResponsesEvent where
  | created
  | inProgress
  | outputItemAdded (outputIndex : Nat)
  | contentPartAdded (outputIndex : Nat) (contentIndex : Nat) (txt : String)
  | outputTextDelta (outputIndex : Nat) (contentIndex : Nat) (delta : String)
  | outputTextDone (outputIndex : Nat) (contentIndex : Nat) (txt : String)
  | contentPartDone (outputIndex : Nat) (contentIndex : Nat) (txt : String)
  | outputItemDone (outputIndex : Nat) (item : ResponsesOutputItem)
  | completed (output : List ResponsesOutputItem) (inputTokens : Nat) (outputTokens : Nat)
  deriving DecidableEq, Repr

/-- The stream loop of `convertVSCodeStreamToResponsesStream` plus its
epilogue: one `output_text.delta` per text part (tool-call parts only add
to the token usage, producing no event; other parts are skipped), then the
fixed `done`/`completed` tail over the accumulated text buffer. -/
def convertVSCodeStreamToResponsesStream.go (count : String → Nat) (inputTokens : Nat) :
    List StreamPart → String → Nat → List ResponsesEvent
  | [], buf, out =>
      [.outputTextDone 0 0 buf, .contentPartDone 0 0 buf,
       .outputItemDone 0 ⟨"completed", [.outputText buf]⟩,
       .completed [⟨"completed", [.outputText buf]⟩] inputTokens out]
  | .text v :: rest, buf, out =>
      .outputTextDelta 0 0 v ::
        convertVSCodeStreamToResponsesStream.go count inputTokens rest (buf ++ v) (out + count v)
  | .toolCall c n j :: rest, buf, out =>
      convertVSCodeStreamToResponsesStream.go count inputTokens rest buf
        (out + count (jsonStringifyToolCallPart c n j))
  | .other :: rest, buf, out =>
      convertVSCodeStreamToResponsesStream.go count inputTokens rest buf out

/-- Streaming synthesizer `convertVSCodeStreamToResponsesStream`
(`src/converter/openaiResponsesConverter.ts` lines 416–596). -/
def convertVSCodeStreamToResponsesStream (count : String → Nat) (inputTokens : Nat)
    (parts : List StreamPart) : List ResponsesEvent :=
  .created :: .inProgress :: .outputItemAdded 0 :: .contentPartAdded 0 0 "" ::
    convertVSCodeStreamToResponsesStream.go count inputTokens parts "" 0

/-- A non-streaming Responses API response object, restricted to `status`,
`output` and usage. -/
structure ResponsesObject where
  status : String
  output : List ResponsesOutputItem
  input_tokens : Nat
  output_tokens : Nat
  deriving DecidableEq, Repr

/-- The stream loop of `convertVSCodeTextToResponsesObject`: text parts are
buffered and counted, tool-call parts only counted, other parts skipped. -/
def convertVSCodeTextToResponsesObject.go (count : String → Nat) :
    List StreamPart → String → Nat → String × Nat
  | [], buf, out => (buf, out)
  | .text v :: rest, buf, out =>
      convertVSCodeTextToResponsesObject.go count rest (buf ++ v) (out + count v)
  | .toolCall c n j :: rest, buf, out =>
      convertVSCodeTextToResponsesObject.go count rest buf
        (out + count (jsonStringifyToolCallPart c n j))
  | .other :: rest, buf, out =>
      convertVSCodeTextToResponsesObject.go count rest buf out

/-- Non-streaming synthesizer `convertVSCodeTextToResponsesObject`
(`src/converter/openaiResponsesConverter.ts` lines 606–679): a single
completed output message holding one `output_text` part with the full
accumulated text. -/
def convertVSCodeTextToResponsesObject (count : String → Nat) (inputTokens : Nat)
    (parts : List StreamPart) : ResponsesObject :=
  let r := convertVSCodeTextToResponsesObject.go count parts "" 0
  ⟨"completed", [⟨"completed", [.outputText r.1]⟩], inputTokens, r.2⟩

/-! ## Dispatch handlers, validation and error taxonomy mapping
(`src/server/openaiHandler.ts`, `anthropicHandler.ts`,
`src/server/openaiResponsesHandler.ts`) -/

/-- A `vscode.LanguageModelError`-shaped value as thrown / caught by the
handlers: `name`, `code` and `message` (empty string models a falsy
message). -/
structure LMError where
  name : String
  code : String
  msg : String
  deriving DecidableEq, Repr

/-- The `messages` field of an inbound JSON body: absent (or otherwise
falsy), present but not an array, or an array of `M`-typed elements
(validation never inspects the elements themselves). -/
inductive MessagesField (M : Type) where
  | missing
  | notAnArray
  | array (xs : List M)
  deriving DecidableEq, Repr

/-- `validateChatCompletionRequest` (`src/server/openaiHandler.ts` lines
152–176): rejects a missing / non-array / empty `messages` field with an
error named `InvalidMessageRequest` (code `invalid_message_format`), then a
falsy `model` field with `InvalidModelRequest` (code `invalid_model`). -/
def validateChatCompletionRequest {M : Type} (messages : MessagesField M)
    (model : Option String) : Except LMError Unit :=
  match messages with
  | .missing =>
      .error ⟨"InvalidMessageRequest", "invalid_message_format", "The messages field is required"⟩
  | .notAnArray =>
      .error ⟨"InvalidMessageRequest", "invalid_message_format", "The messages field is required"⟩
  | .array xs =>
      if xs.length = 0 then
        .error ⟨"InvalidMessageRequest", "invalid_message_format", "The messages field is required"⟩
      else
        match model with
        | none => .error ⟨"InvalidModelRequest", "invalid_model", "The model field is required"⟩
        | some m =>
            if m = "" then
              .error ⟨"InvalidModelRequest", "invalid_model", "The model field is required"⟩
            else .ok ()

/-- The mapped OpenAI-dialect error response: HTTP status plus the error
body's `type`, `code` and `param`. -/
structure OpenAIMappedError where
  statusCode : Nat
  type : String
  code : String
  param : Option String
  deriving DecidableEq, Repr

/-- `handleChatCompletionError` (`src/server/openaiHandler.ts` lines
233–305): switch on `error.name`; any unrecognized name keeps the defaults
`500` / `api_error` / `error.code || 'internal_error'`. -/
def handleChatCompletionError (e : LMError) : OpenAIMappedError :=
  if e.name = "InvalidMessageFormat" then ⟨400, "invalid_request_error", "invalid_message_format", none⟩
  else if e.name = "InvalidModel" then ⟨400, "invalid_request_error", "invalid_model", none⟩
  else if e.name = "NoPermissions" then ⟨403, "access_terminated", "access_terminated", none⟩
  else if e.name = "Blocked" then ⟨403, "blocked", "blocked", none⟩
  else if e.name = "NotFound" then ⟨404, "not_found_error", "model_not_found", some "model"⟩
  else if e.name = "ChatQuotaExceeded" then ⟨429, "insufficient_quota", "quota_exceeded", none⟩
  else if e.name = "Unknown" then ⟨500, "server_error", "internal_server_error", none⟩
  else ⟨500, "api_error", if e.code = "" then "internal_error" else e.code, none⟩

/-- Outcome of a dispatch handler's try block, as far as the claims need
it: either the catch block responded with a mapped error, or validation
passed and control proceeded to model retrieval and
`vsCodeModel.sendRequest`. -/
inductive HandlerOutcome (ε : Type) where
  | errorResponse (e : ε)
  | proceeded
  deriving DecidableEq, Repr

/-- `handleOpenAIChatCompletions` (`src/server/openaiHandler.ts` lines
67–145), restricted to the validation stage: a validation error is caught
and mapped by `handleChatCompletionError`; otherwise the handler goes on to
invoke the host model. -/
def handleOpenAIChatCompletions {M : Type} (messages : MessagesField M)
    (model : Option String) : HandlerOutcome OpenAIMappedError :=
  match validateChatCompletionRequest messages model with
  | .error e => .errorResponse (handleChatCompletionError e)
  | .ok _ => .proceeded

/-- `validateMessagesRequest` (`anthropicHandler.ts`): rejects a missing /
non-array / empty `messages` field with an error named
`InvalidMessageRequest` (code `invalid_request_error`), then a falsy
`model` field with `InvalidModelRequest` (code `not_found_error`). -/
def validateMessagesRequest {M : Type} (messages : MessagesField M)
    (model : Option String) : Except LMError Unit :=
  match messages with
  | .missing =>
      .error ⟨"InvalidMessageRequest", "invalid_request_error", "The messages field is required"⟩
  | .notAnArray =>
      .error ⟨"InvalidMessageRequest", "invalid_request_error", "The messages field is required"⟩
  | .array xs =>
      if xs.length = 0 then
        .error ⟨"InvalidMessageRequest", "invalid_request_error", "The messages field is required"⟩
      else
        match model with
        | none => .error ⟨"InvalidModelRequest", "not_found_error", "The model field is required"⟩
        | some m =>
            if m = "" then
              .error ⟨"InvalidModelRequest", "not_found_error", "The model field is required"⟩
            else .ok ()

/-- The mapped Anthropic-dialect error response: HTTP status plus the
error body's `type` and `message`. -/
structure AnthropicMappedError where
  statusCode : Nat
  type : String
  msg : String
  deriving DecidableEq, Repr

/-- `handleMessageError` (`anthropicHandler.ts`): switch on `error.name`;
the `"Error"` case applies the `Request Failed: <status> <json>` message
shim, modelled by the external `parseRequestFailed` function (the regex
match plus `JSON.parse`, returning the embedded status / error type /
error message when the pattern matches); any unrecognized name keeps the
defaults `500` / `api_error`. -/
def handleMessageError (parseRequestFailed : String → Option (Nat × String × String))
    (e : LMError) : AnthropicMappedError :=
  let message := if e.msg = "" then "An unknown error has occurred" else e.msg
  if e.name = "InvalidMessageFormat" then ⟨400, "invalid_request_error", message⟩
  else if e.name = "InvalidModel" then ⟨400, "invalid_request_error", message⟩
  else if e.name = "NoPermissions" then ⟨403, "permission_error", message⟩
  else if e.name = "Blocked" then ⟨403, "permission_error", message⟩
  else if e.name = "NotFound" then ⟨404, "not_found_error", message⟩
  else if e.name = "ChatQuotaExceeded" then ⟨429, "rate_limit_error", message⟩
  else if e.name = "Error" then
    match parseRequestFailed e.msg with
    | some (status, t, m) => ⟨status, t, m⟩
    | none => ⟨500, "api_error", message⟩
  else if e.name = "Unknown" then ⟨500, "api_error", message⟩
  else ⟨500, "api_error", message⟩

/-- `handleAnthropicMessages` (`anthropicHandler.ts` lines 219–285),
restricted to the validation stage. -/
def handleAnthropicMessages {M : Type}
    (parseRequestFailed : String → Option (Nat × String × String))
    (messages : MessagesField M) (model : Option String) :
    HandlerOutcome AnthropicMappedError :=
  match validateMessagesRequest messages model with
  | .error e => .errorResponse (handleMessageError parseRequestFailed e)
  | .ok _ => .proceeded

/-- The `input` field of an inbound Responses API body: absent / null, a
string, or an array of `M`-typed items. -/
inductive InputField (M : Type) where
  | missing
  | str (s : String)
  | array (xs : List M)
  deriving DecidableEq, Repr

/-- `validateResponsesRequest` (`src/server/openaiResponsesHandler.ts`
lines 111–140): rejects an absent / null `input`, a whitespace-only string
`input`, or an empty array `input`, each with an error named
`InvalidInputRequest` (code `invalid_request_error`). -/
def validateResponsesRequest {M : Type} (input : InputField M) : Except LMError Unit :=
  match input with
  | .missing => .error ⟨"InvalidInputRequest", "invalid_request_error", "The input field is required"⟩
  | .str s =>
      if s.trim = "" then
        .error ⟨"InvalidInputRequest", "invalid_request_error", "The input field cannot be empty"⟩
      else .ok ()
  | .array xs =>
      if xs.length = 0 then
        .error ⟨"InvalidInputRequest", "invalid_request_error", "The input array cannot be empty"⟩
      else .ok ()

/-- `handleResponsesError` (`src/server/openaiResponsesHandler.ts` lines
204–276): switch on `error.name`; any unrecognized name keeps the defaults
`500` / `api_error` / `error.code || 'internal_error'`. -/
def handleResponsesError (e : LMError) : OpenAIMappedError :=
  if e.name = "InvalidInputRequest" then ⟨400, "invalid_request_error", "invalid_request_error", none⟩
  else if e.name = "InvalidModel" then ⟨400, "invalid_request_error", "invalid_model", none⟩
  else if e.name = "NoPermissions" then ⟨403, "access_terminated", "access_terminated", none⟩
  else if e.name = "Blocked" then ⟨403, "blocked", "blocked", none⟩
  else if e.name = "NotFound" then ⟨404, "not_found_error", "model_not_found", some "model"⟩
  else if e.name = "ChatQuotaExceeded" then ⟨429, "insufficient_quota", "quota_exceeded", none⟩
  else if e.name = "Unknown" then ⟨500, "server_error", "internal_server_error", none⟩
  else ⟨500, "api_error", if e.code = "" then "internal_error" else e.code, none⟩

/-- `handleOpenAIResponses` (`src/server/openaiResponsesHandler.ts` lines
37–104), restricted to the validation stage. -/
def handleOpenAIResponses {M : Type} (input : InputField M) :
    HandlerOutcome OpenAIMappedError :=
  match validateResponsesRequest input with
  | .error e => .errorResponse (handleResponsesError e)
  | .ok _ => .proceeded

/-- Error names recognized by `handleChatCompletionError`'s switch. -/
def openAIRecognizedErrorNames : List String :=
  ["InvalidMessageFormat", "InvalidModel", "NoPermissions", "Blocked",
   "NotFound", "ChatQuotaExceeded", "Unknown"]

/-- Error names recognized by `handleMessageError`'s switch. -/
def anthropicRecognizedErrorNames : List String :=
  ["InvalidMessageFormat", "InvalidModel", "NoPermissions", "Blocked",
   "NotFound", "ChatQuotaExceeded", "Error", "Unknown"]

/-- Error names recognized by `handleResponsesError`'s switch. -/
def responsesRecognizedErrorNames : List String :=
  ["InvalidInputRequest", "InvalidModel", "NoPermissions", "Blocked",
   "NotFound", "ChatQuotaExceeded", "Unknown"]

/-- One write to the SSE transport: a `data:`-framed JSON payload or the
`data: [DONE]` sentinel. -/
inductive SSEWrite (α : Type) where
  | data (x : α)
  | done
  deriving DecidableEq, Repr

/-- The write sequence of the OpenAI Chat `handleStreamingResponse`
(`src/server/openaiHandler.ts` lines 185–226): each chunk is written as one
`data:` line, then the `data: [DONE]` sentinel terminates the stream. -/
def handleStreamingResponse (chunks : List ChatCompletionChunk) :
    List (SSEWrite ChatCompletionChunk) :=
  chunks.map .data ++ [.done]

/-! ## Request normalizers: the explicit output-token budget
(`anthropicConverter.ts` lines 267–301, `src/converter/openaiConverter.ts`
lines 156–196, `src/converter/openaiResponsesConverter.ts` lines 347–363) -/

/-- `modelOptions.max_tokens` as computed by
`convertAnthropicRequestToVSCodeRequest`: `anthropicRequest.max_tokens === 1
? 16 : anthropicRequest.max_tokens` (the field is required in the Anthropic
dialect). -/
def convertAnthropicRequestMaxTokens (max_tokens : Int) : Int :=
  if max_tokens = 1 then 16 else max_tokens

/-- `modelOptions.max_tokens` as computed by
`convertOpenAIRequestToVSCodeRequest`: the `max_tokens` key is copied into
`modelOptions` verbatim when present (`for (const key of modelOptionKeys)`
loop). -/
def convertOpenAIRequestMaxTokens (max_tokens : Option Int) : Option Int :=
  max_tokens

/-- `modelOptions.max_tokens` as computed by
`convertResponsesRequestToVSCodeRequest`: `request.max_output_tokens` is
copied verbatim when defined. -/
def convertResponsesRequestMaxTokens (max_output_tokens : Option Int) : Option Int :=
  max_output_tokens

/-! ## Derived definitions used by the theorems -/

/-- The per-fragment chunks of the OpenAI Chat streaming synthesizer,
parameterized by the `isRoleSent` flag and the next tool-call index. -/
def openAIPerPartChunks : Bool → Nat → List StreamPart → List ChatCompletionChunk
  | _, _, [] => []
  | isRoleSent, tci, .text v :: rest =>
      ⟨⟨if isRoleSent then none else some "assistant", some v, none⟩, none, ⟨0, 0, 0⟩⟩ ::
        openAIPerPartChunks true tci rest
  | isRoleSent, tci, .toolCall c n j :: rest =>
      ⟨⟨none, none, some [⟨tci, c, n, j⟩]⟩, none, ⟨0, 0, 0⟩⟩ ::
        openAIPerPartChunks isRoleSent (tci + 1) rest
  | isRoleSent, tci, .other :: rest =>
      ⟨ChatDelta.empty, none, ⟨0, 0, 0⟩⟩ :: openAIPerPartChunks isRoleSent tci rest

/-- The final chunk of the OpenAI Chat streaming synthesizer. -/
def openAIFinalChunk (inputTokens : Nat) (finish : String) (out : Nat) : ChatCompletionChunk :=
  ⟨ChatDelta.empty, some finish, ⟨out, inputTokens, inputTokens + out⟩⟩

/-- Reference sequence of `delta.role` values described by the spec: the
first chunk that carries text gets `role: "assistant"` (when no role has
been sent yet), every other chunk gets no role. -/
def roleMarkSeq : Bool → List StreamPart → List (Option String)
  | _, [] => []
  | seen, .text _ :: rest => (if seen then none else some "assistant") :: roleMarkSeq true rest
  | seen, .toolCall _ _ _ :: rest => none :: roleMarkSeq seen rest
  | seen, .other :: rest => none :: roleMarkSeq seen rest

/-- The tool-call delta carried by a chunk, if any (the synthesizer always
emits singleton `tool_calls` arrays). -/
def chunkToolDelta (c : ChatCompletionChunk) : Option ToolCallDelta :=
  match c.delta.tool_calls with
  | some [d] => some d
  | _ => none

/-- Reference sequence of tool-call deltas: one per tool-call fragment, in
order, with consecutive indices starting from `i`. -/
def expectedToolDeltas : Nat → List StreamPart → List ToolCallDelta
  | _, [] => []
  | i, .toolCall c n j :: rest => ⟨i, c, n, j⟩ :: expectedToolDeltas (i + 1) rest
  | i, .text _ :: rest => expectedToolDeltas i rest
  | i, .other :: rest => expectedToolDeltas i rest

/-- The stop reason carried by an Anthropic `message_delta` event. -/
def eventStopReason : AnthropicEvent → Option String
  | .messageDelta sr _ _ => some sr
  | _ => none

/-- The output-token total carried by an Anthropic `message_delta` event. -/
def eventOutputTokens : AnthropicEvent → Option Nat
  | .messageDelta _ _ out => some out
  | _ => none

/-- A `content_block_start` / `content_block_stop` event reduced to its
index (and, for a start, whether the opened block is a `tool_use` block). -/
inductive BlockTag where
  | start (index : Nat) (isToolUse : Bool)
  | stop (index : Nat)
  deriving DecidableEq, Repr

/-- Extract the block tag of an Anthropic stream event, if it is a
`content_block_start` or `content_block_stop`. -/
def blockTagOf : AnthropicEvent → Option BlockTag
  | .contentBlockStart i b =>
      some (.start i (match b with | .toolUse _ _ _ => true | _ => false))
  | .contentBlockStop i => some (.stop i)
  | _ => none

/-- The well-paired block-tag sequence with kinds `ks` starting at index
`i`: `start i, stop i, start (i+1), stop (i+1), …` — every start is closed
by the stop of the same index before the next block opens, and indices
increase by one. -/
def pairedTags : Nat → List Bool → List BlockTag
  | _, [] => []
  | i, b :: bs => .start i b :: .stop i :: pairedTags (i + 1) bs

/-- The kinds (`true` = tool_use, `false` = text) of the content blocks the
Anthropic streaming synthesizer opens for the remaining parts, given
whether a text block is currently open. -/
def blockKindsAux : List StreamPart → Bool → List Bool
  | [], _ => []
  | .text _ :: rest, true => blockKindsAux rest true
  | .text _ :: rest, false => false :: blockKindsAux rest true
  | .toolCall _ _ _ :: rest, _ => true :: blockKindsAux rest false
  | .other :: rest, inside => blockKindsAux rest inside

/-- Index of a `content_block_start` event. -/
def eventStartIndex : AnthropicEvent → Option Nat
  | .contentBlockStart i _ => some i
  | _ => none

/-- Index of a `content_block_stop` event. -/
def eventStopIndex : AnthropicEvent → Option Nat
  | .contentBlockStop i => some i
  | _ => none

/-- Index of a start tag. -/
def tagStartIndex : BlockTag → Option Nat
  | .start i _ => some i
  | .stop _ => none

/-- Index of a stop tag. -/
def tagStopIndex : BlockTag → Option Nat
  | .stop i => some i
  | .start _ _ => none

/-- One `output_text.delta` event per text part, as the Responses streaming
synthesizer emits them. -/
def responsesTextDeltas (parts : List StreamPart) : List ResponsesEvent :=
  parts.filterMap fun p => match p with
    | .text v => some (.outputTextDelta 0 0 v)
    | _ => none

/-- A chunk that carries anything: a role, content or tool-call delta, or
a finish reason.  The chunks the OpenAI Chat streaming synthesizer emits
for unrecognized parts are exactly the invisible ones. -/
def chunkVisible (c : ChatCompletionChunk) : Bool :=
  c.delta.role.isSome || c.delta.content.isSome || c.delta.tool_calls.isSome ||
    c.finish_reason.isSome

/-- The output-token total carried by a Responses `response.completed`
event. -/
def responsesCompletedOutputTokens : ResponsesEvent → Option Nat
  | .completed _ _ out => some out
  | _ => none

/-! ## Helper characterizations used by the theorems -/

@[simp] theorem tokensFold_nil (count : String → Nat) (out : Nat) :
    tokensFold count out [] = out := rfl

@[simp] theorem tokensFold_cons (count : String → Nat) (out : Nat) (p : StreamPart)
    (parts : List StreamPart) :
    tokensFold count out (p :: parts) = tokensFold count (out + fragmentTokens count p) parts := rfl

@[simp] theorem textFold_nil (buf : String) : textFold buf [] = buf := rfl

@[simp] theorem textFold_cons (buf : String) (p : StreamPart) (parts : List StreamPart) :
    textFold buf (p :: parts) =
      textFold (match p with | .text v => buf ++ v | _ => buf) parts := rfl

@[simp] theorem hasToolCall_nil : hasToolCall [] = false := rfl

@[simp] theorem hasToolCall_cons (p : StreamPart) (parts : List StreamPart) :
    hasToolCall (p :: parts) =
      ((match p with | .toolCall _ _ _ => true | _ => false) || hasToolCall parts) := by
  simp [hasToolCall]

/-- Decomposition of the OpenAI Chat streaming loop: all per-fragment
chunks followed by exactly one final chunk carrying the resolved finish
reason and the accumulated usage. -/
theorem openAIChunks_go_eq (count : String → Nat) (inputTokens : Nat) :
    ∀ (parts : List StreamPart) (rs : Bool) (tci : Nat) (itc : Bool) (out : Nat),
      convertVSCodeStreamToOpenAIChunks.go count inputTokens parts rs tci itc out =
        openAIPerPartChunks rs tci parts ++
          [openAIFinalChunk inputTokens
            (if (itc || hasToolCall parts) then "tool_calls" else "stop")
            (tokensFold count out parts)] := by
  intro parts
  induction parts with
  | nil =>
      intro rs tci itc out
      simp [convertVSCodeStreamToOpenAIChunks.go, openAIPerPartChunks, openAIFinalChunk]
  | cons p rest ih =>
      intro rs tci itc out
      cases p with
      | text v =>
          simp [convertVSCodeStreamToOpenAIChunks.go, openAIPerPartChunks, ih,
            fragmentTokens]
      | toolCall c n j =>
          simp [convertVSCodeStreamToOpenAIChunks.go, openAIPerPartChunks, ih,
            fragmentTokens]
      | other =>
          simp [convertVSCodeStreamToOpenAIChunks.go, openAIPerPartChunks, ih,
            fragmentTokens]

theorem openAIPerPartChunks_length :
    ∀ (parts : List StreamPart) (rs : Bool) (tci : Nat),
      (openAIPerPartChunks rs tci parts).length = parts.length := by
  intro parts
  induction parts with
  | nil => intro rs tci; rfl
  | cons p rest ih =>
      intro rs tci
      cases p <;> simp [openAIPerPartChunks, ih]

theorem openAIPerPartChunks_roles :
    ∀ (parts : List StreamPart) (rs : Bool) (tci : Nat),
      (openAIPerPartChunks rs tci parts).map (fun c => c.delta.role) = roleMarkSeq rs parts := by
  intro parts
  induction parts with
  | nil => intro rs tci; rfl
  | cons p rest ih =>
      intro rs tci
      cases p <;> simp [openAIPerPartChunks, roleMarkSeq, ih, ChatDelta.empty]

theorem openAIPerPartChunks_contents :
    ∀ (parts : List StreamPart) (rs : Bool) (tci : Nat),
      (openAIPerPartChunks rs tci parts).map (fun c => c.delta.content) =
        parts.map (fun p => match p with | .text v => some v | _ => none) := by
  intro parts
  induction parts with
  | nil => intro rs tci; rfl
  | cons p rest ih =>
      intro rs tci
      cases p <;> simp [openAIPerPartChunks, ih, ChatDelta.empty]

theorem openAIPerPartChunks_toolDeltas :
    ∀ (parts : List StreamPart) (rs : Bool) (tci : Nat),
      (openAIPerPartChunks rs tci parts).filterMap chunkToolDelta =
        expectedToolDeltas tci parts := by
  intro parts
  induction parts with
  | nil => intro rs tci; rfl
  | cons p rest ih =>
      intro rs tci
      cases p <;> simp [openAIPerPartChunks, expectedToolDeltas, chunkToolDelta, ih,
        ChatDelta.empty]

theorem openAIPerPartChunks_finishReasons :
    ∀ (parts : List StreamPart) (rs : Bool) (tci : Nat),
      (openAIPerPartChunks rs tci parts).map (fun c => c.finish_reason) =
        List.replicate parts.length none := by
  intro parts
  induction parts with
  | nil => intro rs tci; rfl
  | cons p rest ih =>
      intro rs tci
      cases p <;> simp [openAIPerPartChunks, ih, List.replicate_succ]

theorem openAICompletion_go_isToolCalled (count : String → Nat) :
    ∀ (parts : List StreamPart) (acc : OpenAICompletionAcc),
      (convertVSCodeTextToOpenAICompletion.go count parts acc).isToolCalled =
        (acc.isToolCalled || hasToolCall parts) := by
  intro parts
  induction parts with
  | nil => intro acc; simp [convertVSCodeTextToOpenAICompletion.go]
  | cons p rest ih =>
      intro acc
      cases p <;> simp [convertVSCodeTextToOpenAICompletion.go, ih]

theorem openAICompletion_go_outputTokens (count : String → Nat) :
    ∀ (parts : List StreamPart) (acc : OpenAICompletionAcc),
      (convertVSCodeTextToOpenAICompletion.go count parts acc).outputTokens =
        tokensFold count acc.outputTokens parts := by
  intro parts
  induction parts with
  | nil => intro acc; simp [convertVSCodeTextToOpenAICompletion.go]
  | cons p rest ih =>
      intro acc
      cases p <;> simp [convertVSCodeTextToOpenAICompletion.go, ih, fragmentTokens]

theorem openAICompletion_go_textBuffer (count : String → Nat) :
    ∀ (parts : List StreamPart) (acc : OpenAICompletionAcc),
      (convertVSCodeTextToOpenAICompletion.go count parts acc).textBuffer =
        textFold acc.textBuffer parts := by
  intro parts
  induction parts with
  | nil => intro acc; simp [convertVSCodeTextToOpenAICompletion.go]
  | cons p rest ih =>
      intro acc
      cases p <;> simp [convertVSCodeTextToOpenAICompletion.go, ih]

theorem anthropicStream_go_stopReason (count : String → Nat) (inputTokens : Nat) :
    ∀ (parts : List StreamPart) (idx : Nat) (inside : Bool) (sr : String) (out : Nat),
      (convertVSCodeStreamToAnthropicStream.go count inputTokens parts idx inside sr
        out).filterMap eventStopReason =
        [if hasToolCall parts then "tool_use" else sr] := by
  intro parts
  induction parts with
  | nil =>
      intro idx inside sr out
      cases inside <;>
        simp [convertVSCodeStreamToAnthropicStream.go, eventStopReason]
  | cons p rest ih =>
      intro idx inside sr out
      cases p with
      | text v =>
          cases inside <;>
            simp [convertVSCodeStreamToAnthropicStream.go, eventStopReason, ih]
      | toolCall c n j =>
          cases inside <;>
            simp [convertVSCodeStreamToAnthropicStream.go, eventStopReason, ih]
      | other =>
          simp [convertVSCodeStreamToAnthropicStream.go, ih]

theorem anthropicStream_go_outputTokens (count : String → Nat) (inputTokens : Nat) :
    ∀ (parts : List StreamPart) (idx : Nat) (inside : Bool) (sr : String) (out : Nat),
      (convertVSCodeStreamToAnthropicStream.go count inputTokens parts idx inside sr
        out).filterMap eventOutputTokens = [tokensFold count out parts] := by
  intro parts
  induction parts with
  | nil =>
      intro idx inside sr out
      cases inside <;>
        simp [convertVSCodeStreamToAnthropicStream.go, eventOutputTokens]
  | cons p rest ih =>
      intro idx inside sr out
      cases p with
      | text v =>
          cases inside <;>
            simp [convertVSCodeStreamToAnthropicStream.go, eventOutputTokens, ih,
              fragmentTokens]
      | toolCall c n j =>
          cases inside <;>
            simp [convertVSCodeStreamToAnthropicStream.go, eventOutputTokens, ih,
              fragmentTokens]
      | other =>
          simp [convertVSCodeStreamToAnthropicStream.go, ih, fragmentTokens]

theorem anthropicMessage_go_isToolCalled (count : String → Nat) :
    ∀ (parts : List StreamPart) (acc : AnthropicMessageAcc),
      (convertVSCodeTextToAnthropicMessage.go count parts acc).isToolCalled =
        (acc.isToolCalled || hasToolCall parts) := by
  intro parts
  induction parts with
  | nil => intro acc; simp [convertVSCodeTextToAnthropicMessage.go]
  | cons p rest ih =>
      intro acc
      cases p <;> simp [convertVSCodeTextToAnthropicMessage.go, ih]

theorem anthropicMessage_go_outputTokens (count : String → Nat) :
    ∀ (parts : List StreamPart) (acc : AnthropicMessageAcc),
      (convertVSCodeTextToAnthropicMessage.go count parts acc).outputTokens =
        tokensFold count acc.outputTokens parts := by
  intro parts
  induction parts with
  | nil => intro acc; simp [convertVSCodeTextToAnthropicMessage.go]
  | cons p rest ih =>
      intro acc
      cases p <;> simp [convertVSCodeTextToAnthropicMessage.go, ih, fragmentTokens]

theorem anthropicStream_go_blockTags (count : String → Nat) (inputTokens : Nat) :
    ∀ (parts : List StreamPart) (idx : Nat) (inside : Bool) (sr : String) (out : Nat),
      (convertVSCodeStreamToAnthropicStream.go count inputTokens parts idx inside sr
        out).filterMap blockTagOf =
        (if inside then [.stop idx] else []) ++
          pairedTags (if inside then idx + 1 else idx) (blockKindsAux parts inside) := by
  intro parts
  induction parts with
  | nil =>
      intro idx inside sr out
      cases inside <;>
        simp [convertVSCodeStreamToAnthropicStream.go, blockTagOf, blockKindsAux, pairedTags]
  | cons p rest ih =>
      intro idx inside sr out
      cases p with
      | text v =>
          cases inside <;>
            simp [convertVSCodeStreamToAnthropicStream.go, blockTagOf, blockKindsAux,
              pairedTags, ih]
      | toolCall c n j =>
          cases inside <;>
            simp [convertVSCodeStreamToAnthropicStream.go, blockTagOf, blockKindsAux,
              pairedTags, ih]
      | other =>
          cases inside <;>
            simp [convertVSCodeStreamToAnthropicStream.go, blockKindsAux, ih]

theorem pairedTags_startIndices :
    ∀ (ks : List Bool) (i : Nat),
      (pairedTags i ks).filterMap tagStartIndex = List.range' i ks.length := by
  intro ks
  induction ks with
  | nil => intro i; rfl
  | cons b bs ih =>
      intro i
      simp [pairedTags, tagStartIndex, ih, List.range'_succ]

theorem pairedTags_stopIndices :
    ∀ (ks : List Bool) (i : Nat),
      (pairedTags i ks).filterMap tagStopIndex = List.range' i ks.length := by
  intro ks
  induction ks with
  | nil => intro i; rfl
  | cons b bs ih =>
      intro i
      simp [pairedTags, tagStartIndex, tagStopIndex, ih, List.range'_succ]

theorem eventStartIndex_eq_bind (e : AnthropicEvent) :
    eventStartIndex e = (blockTagOf e).bind tagStartIndex := by
  cases e <;> rfl

theorem eventStopIndex_eq_bind (e : AnthropicEvent) :
    eventStopIndex e = (blockTagOf e).bind tagStopIndex := by
  cases e <;> rfl

theorem responsesStream_go_eq (count : String → Nat) (inputTokens : Nat) :
    ∀ (parts : List StreamPart) (buf : String) (out : Nat),
      convertVSCodeStreamToResponsesStream.go count inputTokens parts buf out =
        responsesTextDeltas parts ++
          [.outputTextDone 0 0 (textFold buf parts),
           .contentPartDone 0 0 (textFold buf parts),
           .outputItemDone 0 ⟨"completed", [.outputText (textFold buf parts)]⟩,
           .completed [⟨"completed", [.outputText (textFold buf parts)]⟩] inputTokens
             (tokensFold count out parts)] := by
  intro parts
  induction parts with
  | nil =>
      intro buf out
      simp [convertVSCodeStreamToResponsesStream.go, responsesTextDeltas]
  | cons p rest ih =>
      intro buf out
      cases p <;>
        simp [convertVSCodeStreamToResponsesStream.go, responsesTextDeltas, ih,
          fragmentTokens]

theorem responsesObject_go_eq (count : String → Nat) :
    ∀ (parts : List StreamPart) (buf : String) (out : Nat),
      convertVSCodeTextToResponsesObject.go count parts buf out =
        (textFold buf parts, tokensFold count out parts) := by
  intro parts
  induction parts with
  | nil =>
      intro buf out
      simp [convertVSCodeTextToResponsesObject.go]
  | cons p rest ih =>
      intro buf out
      cases p <;>
        simp [convertVSCodeTextToResponsesObject.go, ih, fragmentTokens]

/-! ## Unrecognized stream parts are skipped (state and output invariance) -/

theorem anthropicStream_go_skip (count : String → Nat) (inputTokens : Nat) :
    ∀ (parts : List StreamPart) (idx : Nat) (inside : Bool) (sr : String) (out : Nat),
      convertVSCodeStreamToAnthropicStream.go count inputTokens parts idx inside sr out =
        convertVSCodeStreamToAnthropicStream.go count inputTokens
          (parts.filter recognizedPart) idx inside sr out := by
  intro parts
  induction parts with
  | nil => intro idx inside sr out; rfl
  | cons p rest ih =>
      intro idx inside sr out
      cases p <;>
        simp [convertVSCodeStreamToAnthropicStream.go, recognizedPart, List.filter_cons,
          ← ih]

theorem openAICompletion_go_skip (count : String → Nat) :
    ∀ (parts : List StreamPart) (acc : OpenAICompletionAcc),
      convertVSCodeTextToOpenAICompletion.go count parts acc =
        convertVSCodeTextToOpenAICompletion.go count (parts.filter recognizedPart) acc := by
  intro parts
  induction parts with
  | nil => intro acc; rfl
  | cons p rest ih =>
      intro acc
      cases p <;>
        simp [convertVSCodeTextToOpenAICompletion.go, recognizedPart, List.filter_cons, ← ih]

theorem anthropicMessage_go_skip (count : String → Nat) :
    ∀ (parts : List StreamPart) (acc : AnthropicMessageAcc),
      convertVSCodeTextToAnthropicMessage.go count parts acc =
        convertVSCodeTextToAnthropicMessage.go count (parts.filter recognizedPart) acc := by
  intro parts
  induction parts with
  | nil => intro acc; rfl
  | cons p rest ih =>
      intro acc
      cases p <;>
        simp [convertVSCodeTextToAnthropicMessage.go, recognizedPart, List.filter_cons, ← ih]

theorem responsesStream_go_skip (count : String → Nat) (inputTokens : Nat) :
    ∀ (parts : List StreamPart) (buf : String) (out : Nat),
      convertVSCodeStreamToResponsesStream.go count inputTokens parts buf out =
        convertVSCodeStreamToResponsesStream.go count inputTokens
          (parts.filter recognizedPart) buf out := by
  intro parts
  induction parts with
  | nil => intro buf out; rfl
  | cons p rest ih =>
      intro buf out
      cases p <;>
        simp [convertVSCodeStreamToResponsesStream.go, recognizedPart, List.filter_cons,
          ← ih]

theorem responsesObject_go_skip (count : String → Nat) :
    ∀ (parts : List StreamPart) (buf : String) (out : Nat),
      convertVSCodeTextToResponsesObject.go count parts buf out =
        convertVSCodeTextToResponsesObject.go count (parts.filter recognizedPart) buf out := by
  intro parts
  induction parts with
  | nil => intro buf out; rfl
  | cons p rest ih =>
      intro buf out
      cases p <;>
        simp [convertVSCodeTextToResponsesObject.go, recognizedPart, List.filter_cons, ← ih]

theorem openAIChunks_go_filterVisible (count : String → Nat) (inputTokens : Nat) :
    ∀ (parts : List StreamPart) (rs : Bool) (tci : Nat) (itc : Bool) (out : Nat),
      (convertVSCodeStreamToOpenAIChunks.go count inputTokens parts rs tci itc
        out).filter chunkVisible =
        convertVSCodeStreamToOpenAIChunks.go count inputTokens
          (parts.filter recognizedPart) rs tci itc out := by
  intro parts
  induction parts with
  | nil =>
      intro rs tci itc out
      simp [convertVSCodeStreamToOpenAIChunks.go, chunkVisible, ChatDelta.empty]
  | cons p rest ih =>
      intro rs tci itc out
      cases p with
      | text v =>
          simp [convertVSCodeStreamToOpenAIChunks.go, recognizedPart, List.filter_cons,
            chunkVisible, ih]
      | toolCall c n j =>
          simp [convertVSCodeStreamToOpenAIChunks.go, recognizedPart, List.filter_cons,
            chunkVisible, ih]
      | other =>
          simp [convertVSCodeStreamToOpenAIChunks.go, recognizedPart, List.filter_cons,
            chunkVisible, ChatDelta.empty, ih]

theorem filterMap_eventStartIndex_eq (l : List AnthropicEvent) :
    l.filterMap eventStartIndex = (l.filterMap blockTagOf).filterMap tagStartIndex := by
  induction l with
  | nil => rfl
  | cons e rest ih =>
      cases e <;>
        simp [eventStartIndex, blockTagOf, tagStartIndex, List.filterMap_cons, ih]

theorem filterMap_eventStopIndex_eq (l : List AnthropicEvent) :
    l.filterMap eventStopIndex = (l.filterMap blockTagOf).filterMap tagStopIndex := by
  induction l with
  | nil => rfl
  | cons e rest ih =>
      cases e <;>
        simp [eventStopIndex, blockTagOf, tagStartIndex, tagStopIndex,
          List.filterMap_cons, ih]

theorem responsesTextDeltas_completedTokens (parts : List StreamPart) :
    (responsesTextDeltas parts).filterMap responsesCompletedOutputTokens = [] := by
  rw [responsesTextDeltas, List.filterMap_filterMap, List.filterMap_eq_nil_iff]
  intro p _
  cases p <;> rfl

/-! ## Claim theorems -/

/-- C1.  A request whose body is missing the `messages` field (absent, not
an array, or empty) never reaches `sendRequest` — validation throws first —
but the OpenAI Chat and Anthropic dialects do NOT return a 400-class
`invalid_request` error: the validators throw errors named
`InvalidMessageRequest` / `InvalidModelRequest`, while the error mappers
match `InvalidMessageFormat` / `InvalidModel`, so the error falls through
to the default 500 / `api_error` mapping.  Only the Responses dialect
(whose validator and mapper agree on `InvalidInputRequest`) returns
400 / `invalid_request_error`.  This theorem evaluates the three dispatch
pipelines at the failing input. -/
theorem spec_C1_missing_messages_evaluation :
    handleOpenAIChatCompletions (M := Unit) .missing (some "gpt-4o") =
      .errorResponse ⟨500, "api_error", "invalid_message_format", none⟩ ∧
    handleOpenAIChatCompletions (M := Unit) (.array []) (some "gpt-4o") =
      .errorResponse ⟨500, "api_error", "invalid_message_format", none⟩ ∧
    handleAnthropicMessages (M := Unit) (fun _ => none) .missing (some "claude-sonnet-4") =
      .errorResponse ⟨500, "api_error", "The messages field is required"⟩ ∧
    handleAnthropicMessages (M := Unit) (fun _ => none) (.array []) (some "claude-sonnet-4") =
      .errorResponse ⟨500, "api_error", "The messages field is required"⟩ ∧
    handleOpenAIResponses (M := Unit) .missing =
      .errorResponse ⟨400, "invalid_request_error", "invalid_request_error", none⟩ := by
  decide

/-- C2.  For every fragment sequence, the `content_block_start` /
`content_block_stop` events of the Anthropic streaming synthesizer form the
well-paired sequence `start 0, stop 0, start 1, stop 1, …` whose block kinds
are exactly one text block per maximal run of text fragments and one
tool_use block per tool-call fragment, in order (`blockKindsAux`): every
start has exactly one matching stop with the same index, the indices are
`0, 1, 2, …` in emission order (strictly increasing), a block — text or
tool_use — is always closed before the next block opens, so blocks never
interleave, and text resuming after a tool call opens a fresh text block. -/
theorem spec_C2_anthropic_block_pairing (count : String → Nat) (inputTokens : Nat)
    (parts : List StreamPart) :
    (convertVSCodeStreamToAnthropicStream count inputTokens parts).filterMap blockTagOf =
      pairedTags 0 (blockKindsAux parts false) ∧
    (convertVSCodeStreamToAnthropicStream count inputTokens parts).filterMap
      eventStartIndex = List.range (blockKindsAux parts false).length ∧
    (convertVSCodeStreamToAnthropicStream count inputTokens parts).filterMap
      eventStopIndex = List.range (blockKindsAux parts false).length := by
  have h := anthropicStream_go_blockTags count inputTokens parts 0 false "end_turn" 0
  simp only [Bool.false_eq_true, if_false, List.nil_append] at h
  have htop : (convertVSCodeStreamToAnthropicStream count inputTokens parts).filterMap
      blockTagOf = pairedTags 0 (blockKindsAux parts false) := by
    rw [convertVSCodeStreamToAnthropicStream]
    simpa [blockTagOf] using h
  refine ⟨htop, ?_, ?_⟩
  · rw [filterMap_eventStartIndex_eq (convertVSCodeStreamToAnthropicStream count inputTokens
      parts), htop]
    simp [pairedTags_startIndices, List.range_eq_range']
  · rw [filterMap_eventStopIndex_eq (convertVSCodeStreamToAnthropicStream count inputTokens
      parts), htop]
    simp [pairedTags_stopIndices, List.range_eq_range']

/-- C3.  For every fragment sequence, the resolved stop / finish reason of
all four synthesizers (OpenAI Chat streaming and non-streaming, Anthropic
streaming and non-streaming) is the tool-call value (`"tool_calls"` /
`"tool_use"`) iff at least one tool-call fragment occurs anywhere in the
sequence, and the normal value (`"stop"` / `"end_turn"`) otherwise. -/
theorem spec_C3_stop_reason_resolution (count : String → Nat) (inputTokens : Nat)
    (parts : List StreamPart) :
    ((convertVSCodeStreamToOpenAIChunks count inputTokens parts).getLast?).bind
        (fun c => c.finish_reason) =
      some (if hasToolCall parts then "tool_calls" else "stop") ∧
    (convertVSCodeTextToOpenAICompletion count inputTokens parts).finish_reason =
      (if hasToolCall parts then "tool_calls" else "stop") ∧
    (convertVSCodeStreamToAnthropicStream count inputTokens parts).filterMap
        eventStopReason =
      [if hasToolCall parts then "tool_use" else "end_turn"] ∧
    (convertVSCodeTextToAnthropicMessage count inputTokens parts).stop_reason =
      (if hasToolCall parts then "tool_use" else "end_turn") := by
  refine ⟨?_, ?_, ?_, ?_⟩
  · rw [convertVSCodeStreamToOpenAIChunks, openAIChunks_go_eq]
    simp [openAIFinalChunk]
  · rw [convertVSCodeTextToOpenAICompletion]
    simp [openAICompletion_go_isToolCalled]
  · rw [convertVSCodeStreamToAnthropicStream]
    simp [eventStopReason, anthropicStream_go_stopReason, List.filterMap_cons]
  · rw [convertVSCodeTextToAnthropicMessage]
    simp [anthropicMessage_go_isToolCalled]

/-- C4.  For every fragment sequence and every token counter, the
`outputTokens` total reported by the streaming synthesizer equals the one
reported by the non-streaming synthesizer of the same dialect, for all
three dialects (both paths add `count(text)` per text fragment and
`count(JSON.stringify(fragment))` per tool-call fragment). -/
theorem spec_C4_streaming_usage_equivalence (count : String → Nat) (inputTokens : Nat)
    (parts : List StreamPart) :
    ((convertVSCodeStreamToOpenAIChunks count inputTokens parts).getLast?).map
        (fun c => c.usage.completion_tokens) =
      some ((convertVSCodeTextToOpenAICompletion count inputTokens
        parts).usage.completion_tokens) ∧
    (convertVSCodeStreamToAnthropicStream count inputTokens parts).filterMap
        eventOutputTokens =
      [(convertVSCodeTextToAnthropicMessage count inputTokens parts).output_tokens] ∧
    (convertVSCodeStreamToResponsesStream count inputTokens parts).filterMap
        responsesCompletedOutputTokens =
      [(convertVSCodeTextToResponsesObject count inputTokens parts).output_tokens] := by
  refine ⟨?_, ?_, ?_⟩
  · rw [convertVSCodeStreamToOpenAIChunks, openAIChunks_go_eq,
      convertVSCodeTextToOpenAICompletion]
    simp [openAIFinalChunk, openAICompletion_go_outputTokens]
  · rw [convertVSCodeStreamToAnthropicStream, convertVSCodeTextToAnthropicMessage]
    simp [eventOutputTokens, anthropicStream_go_outputTokens, List.filterMap_cons,
      anthropicMessage_go_outputTokens]
  · rw [convertVSCodeStreamToResponsesStream, responsesStream_go_eq,
      convertVSCodeTextToResponsesObject]
    simp [responsesCompletedOutputTokens, responsesObject_go_eq,
      List.filterMap_append, List.filterMap_cons, responsesTextDeltas_completedTokens]

/-- C5.  For every fragment sequence, the OpenAI Chat streaming synthesizer
emits exactly one delta chunk per fragment plus one final chunk; the
`delta.role = "assistant"` field appears on the first chunk that carries
text and on no other chunk; each tool-call fragment's delta gets the next
incrementing tool-call index starting from 0 (with the fragment's id, name
and serialized arguments); only the one final chunk carries a finish
reason — empty delta, the resolved finish reason and the accumulated
usage; and the handler's write sequence ends with the `data: [DONE]`
sentinel. -/
theorem spec_C5_openai_chunk_shape (count : String → Nat) (inputTokens : Nat)
    (parts : List StreamPart) :
    (convertVSCodeStreamToOpenAIChunks count inputTokens parts).length =
      parts.length + 1 ∧
    (convertVSCodeStreamToOpenAIChunks count inputTokens parts).map
        (fun c => c.delta.role) = roleMarkSeq false parts ++ [none] ∧
    (convertVSCodeStreamToOpenAIChunks count inputTokens parts).map
        (fun c => c.delta.content) =
      parts.map (fun p => match p with | .text v => some v | _ => none) ++ [none] ∧
    (convertVSCodeStreamToOpenAIChunks count inputTokens parts).filterMap chunkToolDelta =
      expectedToolDeltas 0 parts ∧
    (convertVSCodeStreamToOpenAIChunks count inputTokens parts).map
        (fun c => c.finish_reason) =
      List.replicate parts.length none ++
        [some (if hasToolCall parts then "tool_calls" else "stop")] ∧
    (convertVSCodeStreamToOpenAIChunks count inputTokens parts).getLast? =
      some (openAIFinalChunk inputTokens
        (if hasToolCall parts then "tool_calls" else "stop") (tokensFold count 0 parts)) ∧
    (handleStreamingResponse
        (convertVSCodeStreamToOpenAIChunks count inputTokens parts)).getLast? =
      some .done := by
  refine ⟨?_, ?_, ?_, ?_, ?_, ?_, ?_⟩
  · rw [convertVSCodeStreamToOpenAIChunks, openAIChunks_go_eq]
    simp [openAIPerPartChunks_length]
  · rw [convertVSCodeStreamToOpenAIChunks, openAIChunks_go_eq]
    simp [openAIPerPartChunks_roles, openAIFinalChunk, ChatDelta.empty]
  · rw [convertVSCodeStreamToOpenAIChunks, openAIChunks_go_eq]
    simp [openAIPerPartChunks_contents, openAIFinalChunk, ChatDelta.empty]
  · rw [convertVSCodeStreamToOpenAIChunks, openAIChunks_go_eq]
    simp [openAIPerPartChunks_toolDeltas, openAIFinalChunk, ChatDelta.empty,
      chunkToolDelta, List.filterMap_append]
  · rw [convertVSCodeStreamToOpenAIChunks, openAIChunks_go_eq]
    simp [openAIPerPartChunks_finishReasons, openAIFinalChunk]
  · rw [convertVSCodeStreamToOpenAIChunks, openAIChunks_go_eq]
    simp
  · rw [handleStreamingResponse]
    simp

/-- C6.  For the empty fragment sequence every non-streaming synthesizer
still returns a well-formed response with present, empty text content:
OpenAI Chat `message.content = ""` (and no `tool_calls`), Anthropic
`content = [one empty text block]`, OpenAI Responses one completed output
message holding an `output_text` part with `text = ""`. -/
theorem spec_C6_empty_stream_nonstreaming (count : String → Nat) (inputTokens : Nat) :
    (convertVSCodeTextToOpenAICompletion count inputTokens []).message.content = "" ∧
    (convertVSCodeTextToOpenAICompletion count inputTokens []).message.tool_calls = none ∧
    (convertVSCodeTextToAnthropicMessage count inputTokens []).content =
      [.text ""] ∧
    (convertVSCodeTextToResponsesObject count inputTokens []).output =
      [⟨"completed", [.outputText ""]⟩] := by
  refine ⟨rfl, rfl, ?_, rfl⟩
  simp [convertVSCodeTextToAnthropicMessage, convertVSCodeTextToAnthropicMessage.go]

/-- C7.  For every fragment sequence, the OpenAI Responses streaming
synthesizer emits exactly the fixed event order `response.created`,
`response.in_progress`, `response.output_item.added`,
`response.content_part.added`, one `response.output_text.delta` per text
fragment in order, `response.output_text.done`,
`response.content_part.done`, `response.output_item.done`,
`response.completed`, with exactly one output item and one content part;
tool-call fragments add to the reported output-token usage but produce no
events of their own. -/
theorem spec_C7_responses_event_lifecycle (count : String → Nat) (inputTokens : Nat)
    (parts : List StreamPart) :
    convertVSCodeStreamToResponsesStream count inputTokens parts =
      [.created, .inProgress, .outputItemAdded 0, .contentPartAdded 0 0 ""] ++
        responsesTextDeltas parts ++
        [.outputTextDone 0 0 (textFold "" parts),
         .contentPartDone 0 0 (textFold "" parts),
         .outputItemDone 0 ⟨"completed", [.outputText (textFold "" parts)]⟩,
         .completed [⟨"completed", [.outputText (textFold "" parts)]⟩] inputTokens
           (tokensFold count 0 parts)] := by
  rw [convertVSCodeStreamToResponsesStream, responsesStream_go_eq]
  simp

/-- C8 counterexample.  The claim states that EVERY request normalizer
widens an explicit output-token budget of 1 to something strictly greater
than 1.  The OpenAI Chat and OpenAI Responses normalizers forward
`max_tokens` / `max_output_tokens` verbatim, so a budget of 1 stays 1. -/
theorem spec_C8_counterexample :
    convertOpenAIRequestMaxTokens (some 1) = some 1 ∧
    convertResponsesRequestMaxTokens (some 1) = some 1 ∧
    ¬ ((1 : Int) > 1) := by
  refine ⟨rfl, rfl, by decide⟩

/-- C8 (amended).  Only the Anthropic request normalizer widens an explicit
`max_tokens` of 1, replacing it with the safe floor 16 (> 1); every other
budget is passed through unchanged, and the OpenAI Chat and OpenAI
Responses normalizers always forward the budget literally. -/
theorem spec_C8_amended_max_tokens_floor :
    (∀ n : Int, n ≠ 1 → convertAnthropicRequestMaxTokens n = n) ∧
    convertAnthropicRequestMaxTokens 1 = 16 ∧ (16 : Int) > 1 ∧
    (∀ v : Option Int, convertOpenAIRequestMaxTokens v = v) ∧
    (∀ v : Option Int, convertResponsesRequestMaxTokens v = v) := by
  refine ⟨?_, rfl, by decide, fun v => rfl, fun v => rfl⟩
  intro n hn
  simp [convertAnthropicRequestMaxTokens, hn]

/-- C8 witness: the amended theorem applied at the concrete budget 5. -/
theorem spec_C8_witness :
    (5 : Int) ≠ 1 ∧ convertAnthropicRequestMaxTokens 5 = 5 :=
  ⟨by decide, spec_C8_amended_max_tokens_floor.1 5 (by decide)⟩

/-- C9.  For every host-model error whose name is not one of the cases
recognized by a dialect's error-mapping switch, that dialect's mapper
returns HTTP status 500 with the dialect's internal `api_error` body —
never an unmapped shape or a different status. -/
theorem spec_C9_unrecognized_error_maps_to_500 (e : LMError)
    (parseRequestFailed : String → Option (Nat × String × String)) :
    (e.name ∉ openAIRecognizedErrorNames →
      (handleChatCompletionError e).statusCode = 500 ∧
      (handleChatCompletionError e).type = "api_error") ∧
    (e.name ∉ anthropicRecognizedErrorNames →
      (handleMessageError parseRequestFailed e).statusCode = 500 ∧
      (handleMessageError parseRequestFailed e).type = "api_error") ∧
    (e.name ∉ responsesRecognizedErrorNames →
      (handleResponsesError e).statusCode = 500 ∧
      (handleResponsesError e).type = "api_error") := by
  refine ⟨?_, ?_, ?_⟩
  · intro h
    simp only [openAIRecognizedErrorNames, List.mem_cons, List.not_mem_nil, or_false,
      not_or] at h
    obtain ⟨h1, h2, h3, h4, h5, h6, h7⟩ := h
    simp [handleChatCompletionError, h1, h2, h3, h4, h5, h6, h7]
  · intro h
    simp only [anthropicRecognizedErrorNames, List.mem_cons, List.not_mem_nil, or_false,
      not_or] at h
    obtain ⟨h1, h2, h3, h4, h5, h6, h7, h8⟩ := h
    simp [handleMessageError, h1, h2, h3, h4, h5, h6, h7, h8]
  · intro h
    simp only [responsesRecognizedErrorNames, List.mem_cons, List.not_mem_nil, or_false,
      not_or] at h
    obtain ⟨h1, h2, h3, h4, h5, h6, h7⟩ := h
    simp [handleResponsesError, h1, h2, h3, h4, h5, h6, h7]

/-- C9 witness: the theorem applied to a concrete unrecognized error name. -/
theorem spec_C9_witness :
    (handleChatCompletionError ⟨"SomeOtherError", "", "boom"⟩).statusCode = 500 ∧
    (handleChatCompletionError ⟨"SomeOtherError", "", "boom"⟩).type = "api_error" ∧
    (handleMessageError (fun _ => none) ⟨"SomeOtherError", "", "boom"⟩).statusCode = 500 ∧
    (handleMessageError (fun _ => none) ⟨"SomeOtherError", "", "boom"⟩).type = "api_error" ∧
    (handleResponsesError ⟨"SomeOtherError", "", "boom"⟩).statusCode = 500 ∧
    (handleResponsesError ⟨"SomeOtherError", "", "boom"⟩).type = "api_error" := by
  have h := spec_C9_unrecognized_error_maps_to_500 ⟨"SomeOtherError", "", "boom"⟩
    (fun _ => none)
  exact ⟨(h.1 (by decide)).1, (h.1 (by decide)).2, (h.2.1 (by decide)).1,
    (h.2.1 (by decide)).2, (h.2.2 (by decide)).1, (h.2.2 (by decide)).2⟩

/-- C10 counterexample.  The claim states that EVERY synthesizer's result
on a sequence containing unrecognized parts equals its result on the same
sequence with those parts removed.  The OpenAI Chat streaming synthesizer
violates this: for an unrecognized part it still yields a chunk (with empty
delta), so the chunk sequence for `[other]` differs from the one for `[]`. -/
theorem spec_C10_counterexample :
    convertVSCodeStreamToOpenAIChunks (fun _ => 0) 0 [.other] ≠
      convertVSCodeStreamToOpenAIChunks (fun _ => 0) 0 [] := by
  decide

/-- C10 (amended).  Unrecognized stream parts contribute no content, no
output tokens and no stop-reason change anywhere: the Anthropic streaming
and non-streaming synthesizers, the OpenAI Chat non-streaming synthesizer
and both OpenAI Responses synthesizers produce results identical to the
sequence with those parts removed; the OpenAI Chat streaming synthesizer
additionally emits one chunk with empty delta and no finish reason per
unrecognized part, and dropping exactly those empty chunks yields the
chunk sequence of the cleaned input. -/
theorem spec_C10_amended_unknown_parts_skipped (count : String → Nat) (inputTokens : Nat)
    (parts : List StreamPart) :
    convertVSCodeStreamToAnthropicStream count inputTokens parts =
      convertVSCodeStreamToAnthropicStream count inputTokens
        (parts.filter recognizedPart) ∧
    convertVSCodeTextToOpenAICompletion count inputTokens parts =
      convertVSCodeTextToOpenAICompletion count inputTokens
        (parts.filter recognizedPart) ∧
    convertVSCodeTextToAnthropicMessage count inputTokens parts =
      convertVSCodeTextToAnthropicMessage count inputTokens
        (parts.filter recognizedPart) ∧
    convertVSCodeStreamToResponsesStream count inputTokens parts =
      convertVSCodeStreamToResponsesStream count inputTokens
        (parts.filter recognizedPart) ∧
    convertVSCodeTextToResponsesObject count inputTokens parts =
      convertVSCodeTextToResponsesObject count inputTokens
        (parts.filter recognizedPart) ∧
    (convertVSCodeStreamToOpenAIChunks count inputTokens parts).filter chunkVisible =
      convertVSCodeStreamToOpenAIChunks count inputTokens
        (parts.filter recognizedPart) := by
  refine ⟨?_, ?_, ?_, ?_, ?_, ?_⟩
  · rw [convertVSCodeStreamToAnthropicStream, convertVSCodeStreamToAnthropicStream,
      anthropicStream_go_skip]
  · rw [convertVSCodeTextToOpenAICompletion, convertVSCodeTextToOpenAICompletion,
      openAICompletion_go_skip]
  · rw [convertVSCodeTextToAnthropicMessage, convertVSCodeTextToAnthropicMessage,
      anthropicMessage_go_skip]
  · rw [convertVSCodeStreamToResponsesStream, convertVSCodeStreamToResponsesStream,
      responsesStream_go_skip]
  · rw [convertVSCodeTextToResponsesObject, convertVSCodeTextToResponsesObject,
      responsesObject_go_skip]
  · rw [convertVSCodeStreamToOpenAIChunks, convertVSCodeStreamToOpenAIChunks,
      openAIChunks_go_filterVisible]
